import Mathlib

/-!
Shallow embedding of `src/app.py`, a Streamlit + gspread data-entry tool for
ICU antibiotic administration records backed by a Google Sheets worksheet.

The remote spreadsheet service is modelled as an explicit `Backend` state
(an association list of spreadsheets keyed by their opaque ID, each holding a
list of titled worksheets whose raw cell grid is a list of rows of strings).
The Streamlit secret store is modelled as a `Secrets` record.  Each façade
function of the source (`get_google_sheet_client`, `get_sheet_id`,
`read_sheet`, `append_to_sheet`, `initialize_sheet_if_empty`) becomes a pure
function over these states; exceptions raised by the gspread library
(`SpreadsheetNotFound`, `WorksheetNotFound`) become the explicit branches the
source's `except` clauses turn them into.  Outbound remote calls are recorded
in an explicit trace of `NetCall` events.

Python string primitives used by `get_sheet_id` (`in`, `str.split`) are
embedded over `List Char`: `containsSub` is Python's substring test and
`pySplit` is Python's `str.split` on a non-empty separator (implemented with
a fuel counter; `s.length + 1` bounds the number of pieces any split of `s`
can produce, so the fuel never runs out and the function agrees with
Python's split everywhere).
-/

namespace ICUApp

/-- `isPre p l` is true when `p` is a leading run of `l`
(character-list level prefix test used by the substring test). -/
def isPre : List Char → List Char → Bool
  | [], _ => true
  | _ :: _, [] => false
  | a :: as, b :: bs => a == b && isPre as bs

/-- Python's `sep in s` substring test on character lists. -/
def containsSub (sep : List Char) : List Char → Bool
  | [] => sep.isEmpty
  | l@(_ :: cs) => isPre sep l || containsSub sep cs

/-- The characters of `s` strictly before the first occurrence of `sep`
(`s` itself if `sep` does not occur). -/
def takeUntil (sep : List Char) : List Char → List Char
  | [] => []
  | l@(c :: cs) => if isPre sep l then [] else c :: takeUntil sep cs

/-- The characters of `s` strictly after the first occurrence of `sep`,
or `none` if `sep` does not occur in `s`. -/
def dropThru (sep : List Char) : List Char → Option (List Char)
  | [] => none
  | l@(_ :: cs) => if isPre sep l then some (l.drop sep.length) else dropThru sep cs

/-- Fuelled worker for Python's `str.split`: peel off pieces at each
occurrence of `sep`.  Each recursive step consumes at least one character of
the remaining input (for non-empty `sep`), so `s.length + 1` fuel is always
enough. -/
def pySplitF (sep : List Char) : Nat → List Char → List (List Char)
  | 0, s => [s]
  | fuel + 1, s =>
    match dropThru sep s with
    | none => [s]
    | some rest => takeUntil sep s :: pySplitF sep fuel rest

/-- Python's `s.split(sep)` for a non-empty separator. -/
def pySplit (sep s : List Char) : List (List Char) :=
  pySplitF sep (s.length + 1) s

/-- The host fragment `"docs.google.com/spreadsheets"` the source tests with
`in` to decide whether the configured value is a full URL. -/
def hostMark : List Char := "docs.google.com/spreadsheets".toList

/-- The separator `"/d/"` of `sheet_url.split("/d/")`. -/
def slashD : List Char := ['/', 'd', '/']

/-- The separator `"/"` of `.split("/")`. -/
def slashL : List Char := ['/']

/-- A single-quote character as a string (Python's `repr` quotes list
elements with it). -/
def sq : String := String.singleton (Char.ofNat 39)

/-- Python's `str` of a list of strings, as interpolated into the
worksheet-not-found f-string of `read_sheet`. -/
def pyListRepr (xs : List String) : String :=
  "[" ++ String.intercalate ", " (xs.map fun t => sq ++ t ++ sq) ++ "]"

/-- The Streamlit secret store `st.secrets`: presence of the top-level
`gcp_service_account` bundle, and the value of `st.secrets["sheets"]["url"]`
(`none` when the `sheets`/`url` keys are absent). -/
structure Secrets where
  gcp_service_account : Bool
  sheets_url : Option String
deriving DecidableEq

/-- One worksheet (a named tab): its title and its raw cell grid, in the
normal form returned by gspread's `get_all_values` (no trailing empty rows,
`[]` for a fully empty sheet). -/
structure Worksheet where
  title : String
  cells : List (List String)
deriving DecidableEq

/-- A spreadsheet: the ordered list of its worksheets. -/
structure Spreadsheet where
  worksheets : List Worksheet
deriving DecidableEq

/-- The remote service's state: spreadsheets keyed by their opaque ID. -/
structure Backend where
  sheets : List (String × Spreadsheet)
deriving DecidableEq

/-- Outbound remote calls the façade can make. -/
inductive NetCall where
  | authorize : NetCall
  | openSpreadsheet : String → NetCall
deriving DecidableEq

/-- gspread's `client.open_by_key(sheet_id)`: first spreadsheet registered
under the ID, raising `SpreadsheetNotFound` (here `none`) otherwise. -/
def lookupA : List (String × Spreadsheet) → String → Option Spreadsheet
  | [], _ => none
  | (k, v) :: t, sheet_id => if k = sheet_id then some v else lookupA t sheet_id

/-- gspread's `sheet.worksheet(name)`: first worksheet with the given title,
raising `WorksheetNotFound` (here `none`) otherwise. -/
def findWs : List Worksheet → String → Option Worksheet
  | [], _ => none
  | w :: t, name => if w.title = name then some w else findWs t name

/-- gspread's `worksheet.append_row(row)` applied to the worksheet
`sheet.worksheet(name)` resolves to: the first title match gets `row` as a
new trailing row. -/
def appendWs : List Worksheet → String → List String → List Worksheet
  | [], _, _ => []
  | w :: t, name, row =>
    if w.title = name then { w with cells := w.cells ++ [row] } :: t
    else w :: appendWs t name row

/-- Write-back of an updated spreadsheet into the backend at its ID. -/
def updateSheets : List (String × Spreadsheet) → String → (Spreadsheet → Spreadsheet) →
    List (String × Spreadsheet)
  | [], _, _ => []
  | (k, v) :: t, sheet_id, f =>
    if k = sheet_id then (k, f v) :: t else (k, v) :: updateSheets t sheet_id f

/-- The raw cell grid of the worksheet `name` of spreadsheet `sheet_id`,
when both resolve. -/
def wsCells (b : Backend) (sheet_id name : String) : Option (List (List String)) :=
  (lookupA b.sheets sheet_id).bind fun s => (findWs s.worksheets name).map Worksheet.cells

/-- gspread's `worksheet.get_all_records()`: rows after the header row,
keyed by the header row.  A header-only (or empty) grid yields `[]`. -/
def get_all_records : List (List String) → List (List (String × String))
  | [] => []
  | header :: rows => rows.map fun r => header.zip r

/-- A table of records as handed to `pd.DataFrame`. -/
abbrev Table := List (List (String × String))

/-- `get_google_sheet_client` (src/app.py lines 15-44): checks that the
top-level `gcp_service_account` key exists in the secret store before
building credentials; on success performs the single `gspread.authorize`
remote call and returns the handle.  Result: (client handle, error message)
plus the trace of outbound calls.  (Authentication rejections by the remote
service are raised inside `authorize` and are not part of this deterministic
model.) -/
def get_google_sheet_client (secrets : Secrets) : (Option Unit × Option String) × List NetCall :=
  if secrets.gcp_service_account then ((some (), none), [NetCall.authorize])
  else ((none, some "Missing gcp_service_account in secrets"), [])

/-- `get_sheet_id` (src/app.py lines 46-67): reads
`st.secrets["sheets"]["url"]`; if the value looks like a full spreadsheet
URL, extracts the ID via `sheet_url.split("/d/")[1].split("/")[0]`, failing
when the URL lacks a `/d/` segment; otherwise the value is assumed to
already be the bare ID. -/
def get_sheet_id (secrets : Secrets) : Option String × Option String :=
  match secrets.sheets_url with
  | none => (none, some "Sheet URL not configured in secrets")
  | some sheet_url =>
    let u := sheet_url.toList
    if containsSub hostMark u then
      if containsSub slashD u then
        (some ((pySplit slashL ((pySplit slashD u).getD 1 [])).getD 0 []).asString, none)
      else
        (none, some "Invalid Sheet URL format")
    else
      (some sheet_url, none)

/-- `read_sheet` (src/app.py lines 69-102): client acquisition, then the
empty-ID guard, then `open_by_key` (recorded in the trace), then the
worksheet lookup whose failure message lists the available worksheet
titles, then `get_all_records` wrapped in a DataFrame (empty DataFrame for
no records). -/
def read_sheet (secrets : Secrets) (b : Backend) (sheet_id : String)
    (worksheet_name : String := "Sheet1") : (Option Table × Option String) × List NetCall :=
  match get_google_sheet_client secrets with
  | ((_, some error), calls) => ((none, some error), calls)
  | ((_, none), calls) =>
    if sheet_id = "" then ((none, some "Sheet ID is empty"), calls)
    else
      let calls := calls ++ [NetCall.openSpreadsheet sheet_id]
      match lookupA b.sheets sheet_id with
      | none =>
        ((none, some ("Spreadsheet not found. Please verify:\n1. Sheet ID is correct: "
          ++ sheet_id ++ "\n2. Sheet is shared with service account")), calls)
      | some sheet =>
        match findWs sheet.worksheets worksheet_name with
        | none =>
          ((none, some ("Worksheet " ++ sq ++ worksheet_name ++ sq
            ++ " not found. Available worksheets: "
            ++ pyListRepr (sheet.worksheets.map Worksheet.title))), calls)
        | some w =>
          let data := get_all_records w.cells
          if data = [] then ((some [], none), calls)
          else ((some data, none), calls)

/-- `append_to_sheet` (src/app.py lines 104-122): client acquisition, then
`open_by_key` and the worksheet lookup (their gspread exceptions caught and
rendered as the two fixed messages of the source), then `append_row`.
Result: (success flag, error message) plus the updated backend. -/
def append_to_sheet (secrets : Secrets) (b : Backend) (sheet_id : String)
    (row_data : List String) (worksheet_name : String := "Sheet1") :
    (Bool × Option String) × Backend :=
  match get_google_sheet_client secrets with
  | ((_, some error), _) => ((false, some error), b)
  | ((_, none), _) =>
    match lookupA b.sheets sheet_id with
    | none => ((false, some "Spreadsheet not found"), b)
    | some sheet =>
      match findWs sheet.worksheets worksheet_name with
      | none =>
        ((false, some ("Worksheet " ++ sq ++ worksheet_name ++ sq ++ " not found")), b)
      | some _ =>
        ((true, none),
          ⟨updateSheets b.sheets sheet_id fun s => ⟨appendWs s.worksheets worksheet_name row_data⟩⟩)

/-- `initialize_sheet_if_empty` (src/app.py lines 124-143): client
acquisition, `open_by_key`, worksheet lookup (lookup failures fall into the
generic handler, whose message wraps the library exception's text —
abstracted here by the exception's name), then the `get_all_values`
emptiness check: an empty grid gets the six header strings appended and the
message "Headers added successfully"; any other grid is left untouched with
result `(True, None)`. -/
def init_sheet_if_empty (secrets : Secrets) (b : Backend) (sheet_id : String)
    (worksheet_name : String := "Sheet1") : (Bool × Option String) × Backend :=
  match get_google_sheet_client secrets with
  | ((_, some error), _) => ((false, some error), b)
  | ((_, none), _) =>
    match lookupA b.sheets sheet_id with
    | none => ((false, some ("Error initializing sheet: " ++ "SpreadsheetNotFound")), b)
    | some sheet =>
      match findWs sheet.worksheets worksheet_name with
      | none => ((false, some ("Error initializing sheet: " ++ "WorksheetNotFound")), b)
      | some w =>
        if w.cells = [] then
          ((true, some "Headers added successfully"),
            ⟨updateSheets b.sheets sheet_id fun s =>
              ⟨appendWs s.worksheets worksheet_name
                ["Patient ID", "Antibiotic", "Dosage", "Date", "Time", "Added By"]⟩⟩)
        else
          ((true, none), b)

/-- Sequencing of `append_to_sheet` calls against the same worksheet,
threading the backend state; the flag is true when every call succeeded. -/
def runAppends (secrets : Secrets) (b : Backend) (sheet_id name : String) :
    List (List String) → Backend × Bool
  | [] => (b, true)
  | row :: rest =>
    let r := append_to_sheet secrets b sheet_id row name
    let q := runAppends secrets r.2 sheet_id name rest
    (q.1, r.1.1 && q.2)

/-! ### Lemmas about the embedded Python string primitives -/

theorem isPre_append_self (s t : List Char) : isPre s (s ++ t) = true := by
  induction s with
  | nil => rfl
  | cons a as ih => simp [isPre, ih]

theorem takeUntil_of_dropThru_none {sep s : List Char} (h : dropThru sep s = none) :
    takeUntil sep s = s := by
  induction s with
  | nil => rfl
  | cons c cs ih =>
    unfold dropThru at h
    unfold takeUntil
    cases hp : isPre sep (c :: cs) with
    | true => rw [hp] at h; simp at h
    | false =>
      rw [hp] at h
      simp only [Bool.false_eq_true, if_false] at h ⊢
      rw [ih h]

theorem pySplitF_getD_zero (sep : List Char) (fuel : Nat) (s : List Char) :
    (pySplitF sep (fuel + 1) s).getD 0 [] = takeUntil sep s := by
  cases h : dropThru sep s with
  | none => simp [pySplitF, h, takeUntil_of_dropThru_none h]
  | some rest => simp [pySplitF, h]

theorem pySplit_getD_zero (sep s : List Char) :
    (pySplit sep s).getD 0 [] = takeUntil sep s :=
  pySplitF_getD_zero sep s.length s

theorem pySplit_getD_one {sep s r : List Char} (h : dropThru sep s = some r) :
    (pySplit sep s).getD 1 [] = takeUntil sep r := by
  cases s with
  | nil => simp [dropThru] at h
  | cons c cs =>
    show (pySplitF sep ((c :: cs).length + 1) (c :: cs)).getD 1 [] = takeUntil sep r
    rw [show (c :: cs).length + 1 = (cs.length + 1) + 1 from rfl]
    unfold pySplitF
    rw [h]
    simpa using pySplitF_getD_zero sep cs.length r

theorem isPre_take {p l : List Char} {n : Nat} (h : isPre p l = true)
    (hn : p.length ≤ n) : isPre p (l.take n) = true := by
  induction p generalizing l n with
  | nil => rfl
  | cons p ps ih =>
    cases l with
    | nil => simp [isPre] at h
    | cons c cs =>
      cases n with
      | zero => simp at hn
      | succ n =>
        simp only [isPre, Bool.and_eq_true, beq_iff_eq] at h
        simp only [List.take_succ_cons, isPre, Bool.and_eq_true, beq_iff_eq]
        exact ⟨h.1, ih h.2 (by simpa using hn)⟩

theorem containsSub_cons (sep : List Char) (c : Char) (cs : List Char) :
    containsSub sep (c :: cs) = (isPre sep (c :: cs) || containsSub sep cs) := rfl

theorem takeUntil_cons (sep : List Char) (c : Char) (cs : List Char) :
    takeUntil sep (c :: cs) =
      if isPre sep (c :: cs) then [] else c :: takeUntil sep cs := rfl

theorem dropThru_cons (sep : List Char) (c : Char) (cs : List Char) :
    dropThru sep (c :: cs) =
      if isPre sep (c :: cs) then some ((c :: cs).drop sep.length)
      else dropThru sep cs := rfl

theorem no_early_isPre {sep : List Char} (hsep : sep ≠ []) (c : Char) (a b : List Char)
    (h : containsSub sep ((c :: a) ++ sep.dropLast) = false) :
    isPre sep ((c :: a) ++ (sep ++ b)) = false := by
  have hsl : 1 ≤ sep.length := by
    cases sep with
    | nil => exact absurd rfl hsep
    | cons x xs => simp
  cases hp : isPre sep ((c :: a) ++ (sep ++ b)) with
  | false => rfl
  | true =>
    exfalso
    have hlen : sep.length ≤ (c :: a).length + (sep.length - 1) := by
      simp only [List.length_cons]
      omega
    have htake := isPre_take hp hlen
    rw [List.take_append, List.take_append_eq_append_take,
      Nat.sub_eq_zero_of_le (by omega : sep.length - 1 ≤ sep.length)] at htake
    simp only [List.take_nil, List.take_zero, List.append_nil] at htake
    rw [← List.dropLast_eq_take] at htake
    have h1 : isPre sep ((c :: a) ++ sep.dropLast) = false := by
      rw [List.cons_append, containsSub_cons] at h
      simp only [Bool.or_eq_false_iff] at h
      rw [List.cons_append]
      exact h.1
    rw [h1] at htake
    exact Bool.false_ne_true htake

theorem containsSub_tail {sep : List Char} {c : Char} {t : List Char}
    (h : containsSub sep (c :: t) = false) : containsSub sep t = false := by
  rw [containsSub_cons] at h
  simp only [Bool.or_eq_false_iff] at h
  exact h.2

theorem dropThru_marked {sep : List Char} (hsep : sep ≠ []) (a b : List Char)
    (h : containsSub sep (a ++ sep.dropLast) = false) :
    dropThru sep (a ++ (sep ++ b)) = some b := by
  induction a with
  | nil =>
    cases sep with
    | nil => exact absurd rfl hsep
    | cons x xs =>
      have hpre : isPre (x :: xs) (x :: (xs ++ b)) = true := by
        simpa using isPre_append_self (x :: xs) b
      have hdrop : (x :: (xs ++ b)).drop (x :: xs).length = b := by
        rw [← List.cons_append]
        exact List.drop_left (x :: xs) b
      show dropThru (x :: xs) ((x :: xs) ++ b) = some b
      rw [List.cons_append, dropThru_cons, hpre, if_pos rfl, hdrop]
  | cons c a ih =>
    have hfalse := no_early_isPre hsep c a b h
    rw [List.cons_append] at hfalse
    show dropThru sep (c :: (a ++ (sep ++ b))) = some b
    rw [dropThru_cons, hfalse]
    simp only [Bool.false_eq_true, if_false]
    exact ih (containsSub_tail (by rw [← List.cons_append]; exact h))

theorem takeUntil_marked {sep : List Char} (hsep : sep ≠ []) (a b : List Char)
    (h : containsSub sep (a ++ sep.dropLast) = false) :
    takeUntil sep (a ++ (sep ++ b)) = a := by
  induction a with
  | nil =>
    cases sep with
    | nil => exact absurd rfl hsep
    | cons x xs =>
      have hpre : isPre (x :: xs) (x :: (xs ++ b)) = true := by
        simpa using isPre_append_self (x :: xs) b
      show takeUntil (x :: xs) ((x :: xs) ++ b) = []
      rw [List.cons_append, takeUntil_cons, hpre, if_pos rfl]
  | cons c a ih =>
    have hfalse := no_early_isPre hsep c a b h
    rw [List.cons_append] at hfalse
    show takeUntil sep (c :: (a ++ (sep ++ b))) = c :: a
    rw [takeUntil_cons, hfalse]
    simp only [Bool.false_eq_true, if_false]
    rw [ih (containsSub_tail (by rw [← List.cons_append]; exact h))]

theorem takeUntil_takeUntil {ch : Char} {sep : List Char}
    (hch : isPre [ch] sep = true) (t : List Char) :
    takeUntil [ch] (takeUntil sep t) = takeUntil [ch] t := by
  induction t with
  | nil => rfl
  | cons c cs ih =>
    cases sep with
    | nil => simp [isPre] at hch
    | cons s0 ss =>
      simp only [isPre, Bool.and_eq_true, beq_iff_eq] at hch
      cases hp : isPre (s0 :: ss) (c :: cs) with
      | true =>
        have hc : s0 = c := by
          simp only [isPre, Bool.and_eq_true, beq_iff_eq] at hp
          exact hp.1
        rw [takeUntil_cons, hp, if_pos rfl, takeUntil_cons]
        simp only [isPre, Bool.and_true, hch.1, hc, beq_self_eq_true, if_pos rfl]
        rfl
      | false =>
        rw [takeUntil_cons (s0 :: ss), hp]
        simp only [Bool.false_eq_true, if_false]
        cases hcc : (ch == c) with
        | true =>
          rw [takeUntil_cons [ch], takeUntil_cons [ch]]
          simp [isPre, hcc]
        | false =>
          rw [takeUntil_cons [ch], takeUntil_cons [ch]]
          simp only [isPre, Bool.and_true, hcc, Bool.false_eq_true, if_false]
          rw [ih]

theorem containsSub_marked {sep : List Char} (hsep : sep ≠ []) (a b : List Char) :
    containsSub sep (a ++ (sep ++ b)) = true := by
  induction a with
  | nil =>
    cases sep with
    | nil => exact absurd rfl hsep
    | cons x xs =>
      have hpre : isPre (x :: xs) (x :: (xs ++ b)) = true := by
        simpa using isPre_append_self (x :: xs) b
      show containsSub (x :: xs) ((x :: xs) ++ b) = true
      rw [List.cons_append, containsSub_cons, hpre]
      rfl
  | cons c a ih =>
    show containsSub sep (c :: (a ++ (sep ++ b))) = true
    rw [containsSub_cons, ih]
    simp

/-! ### Claims C3 and C4: `get_sheet_id` URL parsing -/

theorem takeUntil_takeUntil_slashL (t : List Char) :
    takeUntil slashL (takeUntil slashD t) = takeUntil slashL t :=
  @takeUntil_takeUntil (Char.ofNat 47) slashD (by decide) t

/-- Claim C3: for every input that is a full spreadsheet URL whose first
`/d/` segment is followed by a slash-free ID and a further `/`-separated
tail, `get_sheet_id` returns exactly that ID with the trailing path
stripped; and for an input containing the spreadsheet host but no `/d/`
segment it fails with the invalid-format error. -/
theorem extract_id_from_url :
    (∀ (g : Bool) (a id c : List Char),
      containsSub hostMark (a ++ (slashD ++ (id ++ (slashL ++ c)))) = true →
      containsSub slashD (a ++ slashD.dropLast) = false →
      containsSub slashL id = false →
      get_sheet_id ⟨g, some ((a ++ (slashD ++ (id ++ (slashL ++ c)))).asString)⟩ =
        (some id.asString, none))
    ∧
    (∀ (g : Bool) (u : String),
      containsSub hostMark u.toList = true →
      containsSub slashD u.toList = false →
      get_sheet_id ⟨g, some u⟩ = (none, some "Invalid Sheet URL format")) := by
  constructor
  · intro g a id c h1 h2 h3
    have hslashD : containsSub slashD (a ++ (slashD ++ (id ++ (slashL ++ c)))) = true :=
      containsSub_marked (by decide) a (id ++ (slashL ++ c))
    have hdrop : dropThru slashD (a ++ (slashD ++ (id ++ (slashL ++ c))))
        = some (id ++ (slashL ++ c)) :=
      dropThru_marked (by decide) a (id ++ (slashL ++ c)) h2
    have h3' : containsSub slashL (id ++ slashL.dropLast) = false := by
      rw [show slashL.dropLast = ([] : List Char) from rfl, List.append_nil]
      exact h3
    have hid : takeUntil slashL (id ++ (slashL ++ c)) = id :=
      takeUntil_marked (by decide) id c h3'
    show (if containsSub hostMark (a ++ (slashD ++ (id ++ (slashL ++ c)))) then
        if containsSub slashD (a ++ (slashD ++ (id ++ (slashL ++ c)))) then
          (some ((pySplit slashL
            ((pySplit slashD (a ++ (slashD ++ (id ++ (slashL ++ c))))).getD 1 [])).getD 0
              []).asString, none)
        else (none, some "Invalid Sheet URL format")
      else (some ((a ++ (slashD ++ (id ++ (slashL ++ c)))).asString), none)) =
      (some id.asString, none)
    rw [if_pos h1, if_pos hslashD, pySplit_getD_one hdrop, pySplit_getD_zero,
      takeUntil_takeUntil_slashL, hid]
  · intro g u h1 h2
    show (if containsSub hostMark u.toList then
        if containsSub slashD u.toList then
          (some ((pySplit slashL ((pySplit slashD u.toList).getD 1 [])).getD 0 []).asString,
            none)
        else (none, some "Invalid Sheet URL format")
      else (some u, none)) = (none, some "Invalid Sheet URL format")
    rw [if_pos h1, if_neg (by rw [h2]; decide)]

/-- Witness for C3 at the canonical URL of the spec and a host-only URL. -/
theorem extract_id_from_url_witness :
    get_sheet_id ⟨true, some "https://docs.google.com/spreadsheets/d/ABC123/edit"⟩ =
      (some "ABC123", none) ∧
    get_sheet_id ⟨true, some "https://docs.google.com/spreadsheets/view"⟩ =
      (none, some "Invalid Sheet URL format") := by
  constructor
  · have h := extract_id_from_url.1 true "https://docs.google.com/spreadsheets".toList
      "ABC123".toList "edit".toList (by decide) (by decide) (by decide)
    have e1 : (("https://docs.google.com/spreadsheets".toList ++
        (slashD ++ ("ABC123".toList ++ (slashL ++ "edit".toList)))).asString) =
        "https://docs.google.com/spreadsheets/d/ABC123/edit" := by decide
    have e2 : ("ABC123".toList).asString = "ABC123" := by decide
    rw [e1, e2] at h
    exact h
  · exact extract_id_from_url.2 true "https://docs.google.com/spreadsheets/view"
      (by decide) (by decide)

/-- Claim C4: for every input not containing the spreadsheet host,
`get_sheet_id` returns the input unchanged and no error. -/
theorem extract_bare_id (g : Bool) (u : String)
    (h : containsSub hostMark u.toList = false) :
    get_sheet_id ⟨g, some u⟩ = (some u, none) := by
  show (if containsSub hostMark u.toList then
      if containsSub slashD u.toList then
        (some ((pySplit slashL ((pySplit slashD u.toList).getD 1 [])).getD 0 []).asString,
          none)
      else (none, some "Invalid Sheet URL format")
    else (some u, none)) = (some u, none)
  rw [if_neg (by rw [h]; decide)]

/-- Witness for C4 at a bare spreadsheet ID. -/
theorem extract_bare_id_witness :
    containsSub hostMark ("ABC123XYZ".toList) = false ∧
    get_sheet_id ⟨true, some "ABC123XYZ"⟩ = (some "ABC123XYZ", none) :=
  ⟨by decide, extract_bare_id true "ABC123XYZ" (by decide)⟩

/-! ### Lemmas about the backend state -/

theorem lookupA_updateSheets (l : List (String × Spreadsheet)) (sheet_id : String)
    (f : Spreadsheet → Spreadsheet) :
    lookupA (updateSheets l sheet_id f) sheet_id = (lookupA l sheet_id).map f := by
  induction l with
  | nil => rfl
  | cons p t ih =>
    obtain ⟨k, v⟩ := p
    by_cases hk : k = sheet_id
    · simp [updateSheets, lookupA, hk]
    · simp [updateSheets, lookupA, hk, ih]

theorem findWs_appendWs (l : List Worksheet) (name : String) (row : List String) :
    findWs (appendWs l name row) name =
      (findWs l name).map (fun w => { w with cells := w.cells ++ [row] }) := by
  induction l with
  | nil => rfl
  | cons w t ih =>
    by_cases hw : w.title = name
    · simp [appendWs, findWs, hw]
    · simp [appendWs, findWs, hw, ih]

theorem wsCells_append_write (b : Backend) (sheet_id name : String) (row : List String) :
    wsCells ⟨updateSheets b.sheets sheet_id fun s => ⟨appendWs s.worksheets name row⟩⟩
        sheet_id name =
      (wsCells b sheet_id name).map (· ++ [row]) := by
  show (lookupA (updateSheets b.sheets sheet_id fun s => ⟨appendWs s.worksheets name row⟩)
        sheet_id).bind (fun s => (findWs s.worksheets name).map Worksheet.cells) =
    ((lookupA b.sheets sheet_id).bind fun s =>
      (findWs s.worksheets name).map Worksheet.cells).map (· ++ [row])
  rw [lookupA_updateSheets]
  cases h : lookupA b.sheets sheet_id with
  | none => rfl
  | some s =>
    show (findWs (appendWs s.worksheets name row) name).map Worksheet.cells =
      ((findWs s.worksheets name).map Worksheet.cells).map (· ++ [row])
    rw [findWs_appendWs]
    cases findWs s.worksheets name with
    | none => rfl
    | some w => rfl

/-! ### Claim C8: missing `gcp_service_account` key -/

/-- Claim C8: when the secret store lacks the top-level `gcp_service_account`
key, the client factory fails with the config-missing error and makes no
outbound network call (empty trace). -/
theorem client_missing_secret_config (secrets : Secrets)
    (h : secrets.gcp_service_account = false) :
    get_google_sheet_client secrets =
      ((none, some "Missing gcp_service_account in secrets"), []) := by
  unfold get_google_sheet_client
  rw [h]
  simp

/-- Witness for C8 at a concrete secret store without the key. -/
theorem client_missing_secret_config_witness :
    get_google_sheet_client ⟨false, none⟩ =
      ((none, some "Missing gcp_service_account in secrets"), []) :=
  client_missing_secret_config ⟨false, none⟩ rfl

/-! ### Claim C9: empty sheet ID guard in `read_sheet` -/

/-- Claim C9: `read_sheet` with an empty sheet ID returns the error
"Sheet ID is empty" (whenever the client factory succeeded, whose error
otherwise takes precedence), and in all cases no open-spreadsheet call
appears in the trace. -/
theorem read_empty_sheet_id_guard (secrets : Secrets) (b : Backend) (name : String) :
    (secrets.gcp_service_account = true →
      (read_sheet secrets b "" name).1 = (none, some "Sheet ID is empty"))
    ∧ ∀ sheet_id, NetCall.openSpreadsheet sheet_id ∉ (read_sheet secrets b "" name).2 := by
  constructor
  · intro hg
    simp [read_sheet, get_google_sheet_client, hg]
  · intro sid
    by_cases hg : secrets.gcp_service_account = true
    · simp [read_sheet, get_google_sheet_client, hg]
    · have hg' : secrets.gcp_service_account = false := by
        cases h : secrets.gcp_service_account
        · rfl
        · exact absurd h hg
      simp [read_sheet, get_google_sheet_client, hg']

/-- Witness for C9 at a concrete environment. -/
theorem read_empty_sheet_id_guard_witness :
    (read_sheet ⟨true, none⟩ ⟨[]⟩ "" "Sheet1").1 = (none, some "Sheet ID is empty")
    ∧ NetCall.openSpreadsheet "SID" ∉ (read_sheet ⟨true, none⟩ ⟨[]⟩ "" "Sheet1").2 :=
  ⟨(read_empty_sheet_id_guard ⟨true, none⟩ ⟨[]⟩ "Sheet1").1 rfl,
   (read_empty_sheet_id_guard ⟨true, none⟩ ⟨[]⟩ "Sheet1").2 "SID"⟩

/-! ### Claim C5: reading a header-only worksheet -/

/-- Claim C5: `read_sheet` on an existing worksheet holding only a header
row returns the empty table and no error. -/
theorem read_header_only_empty_table (secrets : Secrets) (b : Backend)
    (sheet_id name : String) (sheet : Spreadsheet) (w : Worksheet) (hdr : List String)
    (hg : secrets.gcp_service_account = true)
    (hid : sheet_id ≠ "")
    (hs : lookupA b.sheets sheet_id = some sheet)
    (hw : findWs sheet.worksheets name = some w)
    (hc : w.cells = [hdr]) :
    (read_sheet secrets b sheet_id name).1 = (some [], none) := by
  simp [read_sheet, get_google_sheet_client, hg, hid, hs, hw, hc, get_all_records]

/-- Witness for C5: a worksheet holding exactly the canonical header row. -/
theorem read_header_only_empty_table_witness :
    (read_sheet ⟨true, none⟩
      ⟨[("SID", ⟨[⟨"Sheet1",
        [["Patient ID", "Antibiotic", "Dosage", "Date", "Time", "Added By"]]⟩]⟩)]⟩
      "SID" "Sheet1").1 = (some [], none) :=
  read_header_only_empty_table ⟨true, none⟩
    ⟨[("SID", ⟨[⟨"Sheet1",
      [["Patient ID", "Antibiotic", "Dosage", "Date", "Time", "Added By"]]⟩]⟩)]⟩
    "SID" "Sheet1"
    ⟨[⟨"Sheet1", [["Patient ID", "Antibiotic", "Dosage", "Date", "Time", "Added By"]]⟩]⟩
    ⟨"Sheet1", [["Patient ID", "Antibiotic", "Dosage", "Date", "Time", "Added By"]]⟩
    ["Patient ID", "Antibiotic", "Dosage", "Date", "Time", "Added By"]
    rfl (by decide) (by decide) (by decide) rfl

/-! ### Claim C6: appended rows land in call order -/

theorem runAppends_preserves (secrets : Secrets) (sheet_id name : String) :
    ∀ (calls : List (List String)) (b : Backend) (cur : List (List String)),
      secrets.gcp_service_account = true →
      wsCells b sheet_id name = some cur →
      (runAppends secrets b sheet_id name calls).2 = true ∧
      wsCells (runAppends secrets b sheet_id name calls).1 sheet_id name =
        some (cur ++ calls) := by
  intro calls
  induction calls with
  | nil =>
    intro b cur hg hc
    exact ⟨rfl, by simpa using hc⟩
  | cons row rest ih =>
    intro b cur hg hc
    obtain ⟨sheet, hs, w, hw, hcw⟩ :
        ∃ sheet, lookupA b.sheets sheet_id = some sheet ∧
          ∃ w, findWs sheet.worksheets name = some w ∧ w.cells = cur := by
      unfold wsCells at hc
      cases hs : lookupA b.sheets sheet_id with
      | none => rw [hs] at hc; simp at hc
      | some sheet =>
        rw [hs] at hc
        simp only [Option.some_bind] at hc
        cases hw : findWs sheet.worksheets name with
        | none => rw [hw] at hc; simp at hc
        | some w =>
          rw [hw] at hc
          simp at hc
          exact ⟨sheet, rfl, w, hw, hc⟩
    have happ : append_to_sheet secrets b sheet_id row name =
        ((true, none),
          ⟨updateSheets b.sheets sheet_id fun s => ⟨appendWs s.worksheets name row⟩⟩) := by
      simp [append_to_sheet, get_google_sheet_client, hg, hs, hw]
    have hnew : wsCells
        (⟨updateSheets b.sheets sheet_id fun s => ⟨appendWs s.worksheets name row⟩⟩ : Backend)
        sheet_id name = some (cur ++ [row]) := by
      rw [wsCells_append_write, hc]
      rfl
    obtain ⟨hok, hcells⟩ := ih _ (cur ++ [row]) hg hnew
    constructor
    · show (runAppends secrets b sheet_id name (row :: rest)).2 = true
      simp only [runAppends, happ]
      simpa using hok
    · show wsCells (runAppends secrets b sheet_id name (row :: rest)).1 sheet_id name =
        some (cur ++ (row :: rest))
      simp only [runAppends, happ]
      rw [show cur ++ (row :: rest) = (cur ++ [row]) ++ rest by simp]
      exact hcells

/-- Claim C6: running `append_to_sheet` once per element of `calls` against
a header-only worksheet succeeds at every call and leaves the data portion
equal to `calls`, in call order — in particular two identical calls append
two rows. -/
theorem append_rows_in_order (secrets : Secrets) (b : Backend) (sheet_id name : String)
    (hdr : List String) (calls : List (List String))
    (hg : secrets.gcp_service_account = true)
    (hc : wsCells b sheet_id name = some [hdr]) :
    (runAppends secrets b sheet_id name calls).2 = true ∧
    wsCells (runAppends secrets b sheet_id name calls).1 sheet_id name =
      some (hdr :: calls) := by
  have h := runAppends_preserves secrets sheet_id name calls b [hdr] hg hc
  simpa using h

/-- Witness for C6: the same row appended twice yields two data rows. -/
theorem append_rows_in_order_witness :
    (runAppends ⟨true, none⟩ ⟨[("SID", ⟨[⟨"Sheet1", [["h1", "h2"]]⟩]⟩)]⟩ "SID" "Sheet1"
        [["a", "b"], ["a", "b"]]).2 = true ∧
    wsCells (runAppends ⟨true, none⟩ ⟨[("SID", ⟨[⟨"Sheet1", [["h1", "h2"]]⟩]⟩)]⟩ "SID" "Sheet1"
        [["a", "b"], ["a", "b"]]).1 "SID" "Sheet1" =
      some [["h1", "h2"], ["a", "b"], ["a", "b"]] :=
  append_rows_in_order ⟨true, none⟩ ⟨[("SID", ⟨[⟨"Sheet1", [["h1", "h2"]]⟩]⟩)]⟩ "SID" "Sheet1"
    ["h1", "h2"] [["a", "b"], ["a", "b"]] rfl (by decide)

/-! ### Claim C7: missing worksheet errors -/

/-- Claim C7 counterexample: at a concrete spreadsheet whose only worksheet
is titled "Data", `append_to_sheet`'s worksheet-not-found message neither
contains the Python list rendering of the available titles nor even the
title "Data", refuting the claim that appendRow's error message includes
the list of available worksheet names. -/
theorem worksheet_missing_message_cex :
    (append_to_sheet ⟨true, none⟩ ⟨[("SID", ⟨[⟨"Data", [["x"]]⟩]⟩)]⟩ "SID" ["y"] "Sheet1").1.2 =
      some ("Worksheet " ++ sq ++ "Sheet1" ++ sq ++ " not found")
    ∧ containsSub (pyListRepr ["Data"]).toList
        ("Worksheet " ++ sq ++ "Sheet1" ++ sq ++ " not found").toList = false
    ∧ containsSub "Data".toList
        ("Worksheet " ++ sq ++ "Sheet1" ++ sq ++ " not found").toList = false := by
  decide

/-- Claim C7 (amended): when the named worksheet is absent both operations
fail with a worksheet-not-found error; `read_sheet`'s message includes the
list of available worksheet titles, while `append_to_sheet`'s message only
names the missing worksheet. -/
theorem worksheet_missing_errors (secrets : Secrets) (b : Backend)
    (sheet_id name : String) (row : List String) (sheet : Spreadsheet)
    (hg : secrets.gcp_service_account = true)
    (hid : sheet_id ≠ "")
    (hs : lookupA b.sheets sheet_id = some sheet)
    (hw : findWs sheet.worksheets name = none) :
    (read_sheet secrets b sheet_id name).1 =
      (none, some ("Worksheet " ++ sq ++ name ++ sq ++ " not found. Available worksheets: "
        ++ pyListRepr (sheet.worksheets.map Worksheet.title)))
    ∧ append_to_sheet secrets b sheet_id row name =
      ((false, some ("Worksheet " ++ sq ++ name ++ sq ++ " not found")), b) := by
  constructor
  · simp [read_sheet, get_google_sheet_client, hg, hid, hs, hw]
  · simp [append_to_sheet, get_google_sheet_client, hg, hs, hw]

/-- Witness for the amended C7 at a concrete environment. -/
theorem worksheet_missing_errors_witness :
    (read_sheet ⟨true, none⟩ ⟨[("SID", ⟨[⟨"Data", [["x"]]⟩]⟩)]⟩ "SID" "Sheet1").1 =
      (none, some ("Worksheet " ++ sq ++ "Sheet1" ++ sq ++ " not found. Available worksheets: "
        ++ pyListRepr ["Data"]))
    ∧ append_to_sheet ⟨true, none⟩ ⟨[("SID", ⟨[⟨"Data", [["x"]]⟩]⟩)]⟩ "SID" ["y"] "Sheet1" =
      ((false, some ("Worksheet " ++ sq ++ "Sheet1" ++ sq ++ " not found")),
        ⟨[("SID", ⟨[⟨"Data", [["x"]]⟩]⟩)]⟩) :=
  worksheet_missing_errors ⟨true, none⟩ ⟨[("SID", ⟨[⟨"Data", [["x"]]⟩]⟩)]⟩ "SID" "Sheet1"
    ["y"] ⟨[⟨"Data", [["x"]]⟩]⟩ rfl (by decide) (by decide) (by decide)

/-! ### Claims C1 and C2: `init_sheet_if_empty` -/

/-- Claim C1 counterexample: on a concrete fully empty worksheet the header
row the code appends is not the claimed
`["PatientId", "Antibiotic", "Dosage", "Date", "Time", "AddedBy"]`: the
code's first and last header strings are "Patient ID" and "Added By", with
spaces. -/
theorem init_headers_literal_cex :
    wsCells (init_sheet_if_empty ⟨true, none⟩ ⟨[("SID", ⟨[⟨"Sheet1", []⟩]⟩)]⟩ "SID" "Sheet1").2
        "SID" "Sheet1" ≠
      some [["PatientId", "Antibiotic", "Dosage", "Date", "Time", "AddedBy"]] := by
  decide

/-- Claim C1 (amended): on a fully empty raw cell grid the operation
appends exactly `["Patient ID", "Antibiotic", "Dosage", "Date", "Time",
"Added By"]` as the new (single) first row and reports `true` with the
"Headers added successfully" message. -/
theorem init_empty_appends_headers (secrets : Secrets) (b : Backend)
    (sheet_id name : String) (sheet : Spreadsheet) (w : Worksheet)
    (hg : secrets.gcp_service_account = true)
    (hs : lookupA b.sheets sheet_id = some sheet)
    (hw : findWs sheet.worksheets name = some w)
    (hc : w.cells = []) :
    (init_sheet_if_empty secrets b sheet_id name).1 =
      (true, some "Headers added successfully")
    ∧ wsCells (init_sheet_if_empty secrets b sheet_id name).2 sheet_id name =
      some [["Patient ID", "Antibiotic", "Dosage", "Date", "Time", "Added By"]] := by
  have hcells : wsCells b sheet_id name = some [] := by
    unfold wsCells
    rw [hs]
    simp [hw, hc]
  have hrun : init_sheet_if_empty secrets b sheet_id name =
      ((true, some "Headers added successfully"),
        ⟨updateSheets b.sheets sheet_id fun s =>
          ⟨appendWs s.worksheets name
            ["Patient ID", "Antibiotic", "Dosage", "Date", "Time", "Added By"]⟩⟩) := by
    simp [init_sheet_if_empty, get_google_sheet_client, hg, hs, hw, hc]
  rw [hrun]
  refine ⟨rfl, ?_⟩
  rw [wsCells_append_write, hcells]
  rfl

/-- Witness for the amended C1 at a concrete empty worksheet. -/
theorem init_empty_appends_headers_witness :
    (init_sheet_if_empty ⟨true, none⟩ ⟨[("SID", ⟨[⟨"Sheet1", []⟩]⟩)]⟩ "SID" "Sheet1").1 =
      (true, some "Headers added successfully")
    ∧ wsCells (init_sheet_if_empty ⟨true, none⟩ ⟨[("SID", ⟨[⟨"Sheet1", []⟩]⟩)]⟩ "SID"
        "Sheet1").2 "SID" "Sheet1" =
      some [["Patient ID", "Antibiotic", "Dosage", "Date", "Time", "Added By"]] :=
  init_empty_appends_headers ⟨true, none⟩ ⟨[("SID", ⟨[⟨"Sheet1", []⟩]⟩)]⟩ "SID" "Sheet1"
    ⟨[⟨"Sheet1", []⟩]⟩ ⟨"Sheet1", []⟩ rfl (by decide) (by decide) rfl

/-- Claim C2 counterexample: on a concrete worksheet holding one cell, the
operation returns `(true, none)` — its first component is the success
flag, not an initialized flag, so it is not `false` as claimed. -/
theorem init_nonempty_flag_cex :
    (init_sheet_if_empty ⟨true, none⟩ ⟨[("SID", ⟨[⟨"Sheet1", [["x"]]⟩]⟩)]⟩ "SID" "Sheet1").1 =
      (true, none)
    ∧ (init_sheet_if_empty ⟨true, none⟩ ⟨[("SID", ⟨[⟨"Sheet1", [["x"]]⟩]⟩)]⟩ "SID"
        "Sheet1").1.1 ≠ false := by
  decide

/-- Claim C2 (amended): on a worksheet with any existing content the
operation performs no write (the backend is unchanged) and returns the
flag `true` — a success indicator, not an initialized indicator — with no
message/error. -/
theorem init_nonempty_noop (secrets : Secrets) (b : Backend)
    (sheet_id name : String) (sheet : Spreadsheet) (w : Worksheet)
    (hg : secrets.gcp_service_account = true)
    (hs : lookupA b.sheets sheet_id = some sheet)
    (hw : findWs sheet.worksheets name = some w)
    (hc : w.cells ≠ []) :
    init_sheet_if_empty secrets b sheet_id name = ((true, none), b) := by
  simp [init_sheet_if_empty, get_google_sheet_client, hg, hs, hw, hc]

/-- Witness for the amended C2 at a concrete non-empty worksheet. -/
theorem init_nonempty_noop_witness :
    init_sheet_if_empty ⟨true, none⟩ ⟨[("SID", ⟨[⟨"Sheet1", [["x"]]⟩]⟩)]⟩ "SID" "Sheet1" =
      ((true, none), ⟨[("SID", ⟨[⟨"Sheet1", [["x"]]⟩]⟩)]⟩) :=
  init_nonempty_noop ⟨true, none⟩ ⟨[("SID", ⟨[⟨"Sheet1", [["x"]]⟩]⟩)]⟩ "SID" "Sheet1"
    ⟨[⟨"Sheet1", [["x"]]⟩]⟩ ⟨"Sheet1", [["x"]]⟩ rfl (by decide) (by decide) (by decide)

/-! ### Claim C10: result/error exclusivity -/

/-- Claim C10: every `read_sheet` return has a table exactly when the error
component is `none`, and every `append_to_sheet` return has flag `true`
exactly when the error component is `none`. -/
theorem facade_result_error_exclusive (secrets : Secrets) (b : Backend)
    (sheet_id name : String) (row : List String) :
    ((read_sheet secrets b sheet_id name).1.1.isSome ↔
      (read_sheet secrets b sheet_id name).1.2 = none)
    ∧ ((append_to_sheet secrets b sheet_id row name).1.1 = true ↔
      (append_to_sheet secrets b sheet_id row name).1.2 = none) := by
  have hg2 : secrets.gcp_service_account = true ∨ secrets.gcp_service_account = false := by
    cases secrets.gcp_service_account
    · exact Or.inr rfl
    · exact Or.inl rfl
  constructor
  · rcases hg2 with hg | hg
    · by_cases hid : sheet_id = ""
      · simp [read_sheet, get_google_sheet_client, hg, hid]
      · cases hs : lookupA b.sheets sheet_id with
        | none => simp [read_sheet, get_google_sheet_client, hg, hid, hs]
        | some sheet =>
          cases hw : findWs sheet.worksheets name with
          | none => simp [read_sheet, get_google_sheet_client, hg, hid, hs, hw]
          | some w =>
            by_cases hd : get_all_records w.cells = []
            · simp [read_sheet, get_google_sheet_client, hg, hid, hs, hw, hd]
            · simp [read_sheet, get_google_sheet_client, hg, hid, hs, hw, hd]
    · simp [read_sheet, get_google_sheet_client, hg]
  · rcases hg2 with hg | hg
    · cases hs : lookupA b.sheets sheet_id with
      | none => simp [append_to_sheet, get_google_sheet_client, hg, hs]
      | some sheet =>
        cases hw : findWs sheet.worksheets name with
        | none => simp [append_to_sheet, get_google_sheet_client, hg, hs, hw]
        | some w => simp [append_to_sheet, get_google_sheet_client, hg, hs, hw]
    · simp [append_to_sheet, get_google_sheet_client, hg]

/-- Witness for C10 at a concrete environment. -/
theorem facade_result_error_exclusive_witness :
    ((read_sheet ⟨true, none⟩ ⟨[]⟩ "SID" "Sheet1").1.1.isSome ↔
      (read_sheet ⟨true, none⟩ ⟨[]⟩ "SID" "Sheet1").1.2 = none)
    ∧ ((append_to_sheet ⟨true, none⟩ ⟨[]⟩ "SID" ["y"] "Sheet1").1.1 = true ↔
      (append_to_sheet ⟨true, none⟩ ⟨[]⟩ "SID" ["y"] "Sheet1").1.2 = none) :=
  facade_result_error_exclusive ⟨true, none⟩ ⟨[]⟩ "SID" "Sheet1" ["y"]

end ICUApp
